import Mathlib

/-!
Shallow embedding of `itr2_automation/itr2_automation.py`: the slug-based
column/category normalisation, the four source parsers (their row loops,
after column resolution) and the old-regime tax computation.  Monetary
amounts are modelled as exact rationals (`ℚ`): every numeric literal of the
source (`0.05`, `0.15`, `100000.0`, ...) denotes the corresponding rational.
Dynamically typed spreadsheet cells are modelled by `Cell` (text, numeric,
or missing/NaN), and a raised `InputFormatError` by `Except.error` carrying
the formatted message.
-/

namespace ITR2

/-! ### `_slugify` (itr2_automation.py lines 48-68) -/

/-- One character of `_slugify`'s cleaning pass: alphanumeric characters are
kept (already lowercased), everything else becomes an underscore. -/
def slugChar (c : Char) : Char :=
  if c.isAlphanum then c else '_'

/-- Collapse every run of consecutive underscores to a single underscore:
the fixpoint of the source's `while "__" in slug: slug = slug.replace("__", "_")`
loop, computed in one pass. -/
def collapseUnd : List Char → List Char
  | [] => []
  | [c] => [c]
  | c :: d :: rest =>
    if c = '_' ∧ d = '_' then collapseUnd (d :: rest)
    else c :: collapseUnd (d :: rest)

/-- Python `str.strip("_")`: drop leading and trailing underscores. -/
def stripUnd (l : List Char) : List Char :=
  ((l.dropWhile (· = '_')).reverse.dropWhile (· = '_')).reverse

/-- Python `value.lower()` (character-wise lowercasing). -/
def pyLower (s : String) : String :=
  String.mk (s.data.map Char.toLower)

/-- Python `value.upper()` (character-wise uppercasing). -/
def pyUpper (s : String) : String :=
  String.mk (s.data.map Char.toUpper)

/-- Python `s.strip()`: remove leading and trailing whitespace. -/
def pyStrip (s : String) : String :=
  String.mk (((s.data.dropWhile Char.isWhitespace).reverse.dropWhile Char.isWhitespace).reverse)

/-- Python `s.startswith(pre)`. -/
def pyStartsWith (s pre : String) : Bool :=
  pre.data.isPrefixOf s.data

/-- `_slugify`: lowercase, map non-alphanumeric characters to `_`, collapse
runs of `_`, strip leading/trailing `_`. -/
def _slugify (value : String) : String :=
  let cleaned := (pyLower value).data.map slugChar
  String.mk (stripUnd (collapseUnd cleaned))

/-! ### Cells and Python coercions -/

/-- A spreadsheet cell as seen by the row loops: text, a numeric value, or
missing (pandas `NaN`). -/
inductive Cell where
  | text (s : String)
  | num (q : ℚ)
  | empty
  deriving DecidableEq

/-- Python `str(cell)`.  A missing cell is a float NaN and stringifies to
`"nan"`.  (For a numeric cell the exact float formatting of Python is
irrelevant to the claims, which only stringify text and missing cells;
we use the rational's string form.) -/
def Cell.pyStr : Cell → String
  | .text s => s
  | .num q => toString q
  | .empty => "nan"

/-- `pd.isna(cell)`: true exactly for a missing cell. -/
def Cell.isna : Cell → Bool
  | .empty => true
  | _ => false

/-- Python `repr(cell)` as used by the `{...!r}` interpolations of the error
messages (string escaping is irrelevant to the claims). -/
def Cell.pyRepr : Cell → String
  | .text s => "'" ++ s ++ "'"
  | .num q => toString q
  | .empty => "nan"

/-- Interpret a list of decimal digit characters as a natural number. -/
def digitsToNat (l : List Char) : ℕ :=
  l.foldl (fun a c => 10 * a + (c.toNat - 48)) 0

/-- Python `float(s)` on a plain decimal string: optional surrounding
whitespace, optional sign, then digits with an optional fractional part
(at least one digit overall).  Exotic accepted forms (exponents, `inf`,
`nan`, underscore separators) are not modelled; no claim depends on them. -/
def pyParseFloat (s : String) : Option ℚ :=
  let t := (pyStrip s).data
  let (sign, rest) :=
    match t with
    | '+' :: r => ((1 : ℚ), r)
    | '-' :: r => ((-1 : ℚ), r)
    | r => ((1 : ℚ), r)
  match rest.span (· ≠ '.') with
  | (ipart, []) =>
    if ipart ≠ [] ∧ ipart.all Char.isDigit then
      some (sign * (digitsToNat ipart : ℚ))
    else none
  | (ipart, _ :: fpart) =>
    if (ipart ≠ [] ∨ fpart ≠ []) ∧ ipart.all Char.isDigit ∧ fpart.all Char.isDigit ∧
        fpart.all (· ≠ '.') then
      some (sign * ((digitsToNat ipart : ℚ) + (digitsToNat fpart : ℚ) / (10 : ℚ) ^ fpart.length))
    else none

/-- Python `float(cell)` for an amount cell.  The loops only call this after
the `pd.isna` guard, so the missing case never arises there. -/
def Cell.toFloat : Cell → Option ℚ
  | .num q => some q
  | .text s => pyParseFloat s
  | .empty => none

/-! ### Data containers (itr2_automation.py lines 71-133) -/

/-- A Python `dict` of string keys and float values, in insertion order. -/
abbrev StrMap := List (String × ℚ)

/-- `d[k] = d.get(k, 0.0) + v`: update an existing key in place, or append a
new key at the end (Python dicts preserve insertion order). -/
def StrMap.addTo (m : StrMap) (k : String) (v : ℚ) : StrMap :=
  match List.lookup k m with
  | some old => m.map (fun p => if p.1 = k then (k, old + v) else p)
  | none => m ++ [(k, v)]

/-- `sum(d.values())`. -/
def StrMap.sumValues (m : StrMap) : ℚ :=
  (m.map Prod.snd).sum

/-- `Form16Data` (lines 71-91). -/
structure Form16Data where
  gross_salary : ℚ := 0
  exempt_allowances : ℚ := 0
  standard_deduction : ℚ := 0
  professional_tax : ℚ := 0
  other_income_declared : ℚ := 0
  tds : ℚ := 0
  deductions : StrMap := []
  extras : StrMap := []

/-- `Form16Data.salary_income` (lines 82-91). -/
def Form16Data.salary_income (d : Form16Data) : ℚ :=
  d.gross_salary - d.exempt_allowances - d.standard_deduction - d.professional_tax

/-- One detail dict appended by `read_income_sheet` or `read_tis`.
`typeRaw` is the `"Type"` key (only present for TIS entries), `category` the
`"Category"` key, `mapped` the `"MappedCategory"` key, `amount` the
`"Amount"` key and `description` the optional `"Description"` key. -/
structure IncomeDetail where
  typeRaw : Option String := none
  category : String
  mapped : String
  amount : ℚ
  description : Option Cell := none
  deriving DecidableEq

/-- `IncomeBreakdown` (lines 94-103). -/
structure IncomeBreakdown where
  interest_income : ℚ := 0
  dividend_income : ℚ := 0
  rental_income : ℚ := 0
  other_income : ℚ := 0
  details : List IncomeDetail := []

/-- `IncomeBreakdown.total` (lines 102-103). -/
def IncomeBreakdown.total (b : IncomeBreakdown) : ℚ :=
  b.interest_income + b.dividend_income + b.rental_income + b.other_income

/-- One detail dict appended by `read_zerodha` (`"Type"`, `"MappedCategory"`,
`"Amount"` and the optional capitalized description column). -/
structure GainsDetail where
  typeRaw : String
  mapped : String
  amount : ℚ
  description : Option Cell := none
  deriving DecidableEq

/-- `CapitalGainsBreakdown` (lines 106-122). -/
structure CapitalGainsBreakdown where
  stcg_111a : ℚ := 0
  ltcg_112a : ℚ := 0
  speculative_income : ℚ := 0
  non_speculative_income : ℚ := 0
  other_gains : ℚ := 0
  details : List GainsDetail := []

/-- `CapitalGainsBreakdown.total` (lines 115-122). -/
def CapitalGainsBreakdown.total (b : CapitalGainsBreakdown) : ℚ :=
  b.stcg_111a + b.ltcg_112a + b.speculative_income + b.non_speculative_income + b.other_gains

/-- `TaxComputation` (lines 125-132). -/
structure TaxComputation where
  total_income : ℚ
  tax_before_cess : ℚ
  health_education_cess : ℚ
  tax_payable : ℚ
  tax_payable_after_tds : ℚ
  rebate_87a : ℚ
  deriving DecidableEq

/-! ### Column resolution (itr2_automation.py lines 168-183) -/

/-- Lookup in the dict comprehension `{_slugify(col): col for col in df.columns}`:
when two columns share a slug, the later column wins, hence the search over
the reversed header list. -/
def slug_to_original (cols : List String) (slug : String) : Option String :=
  cols.reverse.find? (fun c => _slugify c = slug)

/-- `_pick_column`: try each group of alternative names in order, within a
group each name in order; return the first header whose slug matches, or the
`InputFormatError` message listing all attempted alternatives. -/
def _pick_column (cols : List String) (alternatives : List (List String)) : Except String String :=
  match alternatives.findSome? (fun names =>
      names.findSome? (fun name => slug_to_original cols (_slugify name))) with
  | some c => .ok c
  | none =>
    .error ("None of the expected columns were found. Tried: "
      ++ String.intercalate ", " (alternatives.map (String.intercalate "/")))

/-! ### Static synonym tables (itr2_automation.py lines 236-252, 306-319, 462-473) -/

/-- `FORM16_FIELD_MAP` (lines 236-252). -/
def FORM16_FIELD_MAP : List (String × String) :=
  [("gross_salary", "gross_salary"),
   ("gross_salary_a", "gross_salary"),
   ("gross_total_income", "gross_salary"),
   ("allowances_to_the_extent_exempt_under_section10", "exempt_allowances"),
   ("exempt_allowances", "exempt_allowances"),
   ("standard_deduction", "standard_deduction"),
   ("standard_deduction_us_16ia", "standard_deduction"),
   ("profession_tax", "professional_tax"),
   ("professional_tax", "professional_tax"),
   ("section_16_iii_professional_tax", "professional_tax"),
   ("other_income_declared", "other_income_declared"),
   ("other_income_from_house_property_declared", "other_income_declared"),
   ("tds", "tds"),
   ("tax_deducted_at_source", "tds"),
   ("tax_deducted", "tds")]

/-- `INCOME_CATEGORY_MAP` (lines 306-319). -/
def INCOME_CATEGORY_MAP : List (String × String) :=
  [("interest", "interest_income"),
   ("interest_income", "interest_income"),
   ("bank_interest", "interest_income"),
   ("savings_interest", "interest_income"),
   ("dividend", "dividend_income"),
   ("dividend_income", "dividend_income"),
   ("rent", "rental_income"),
   ("rental_income", "rental_income"),
   ("house_property", "rental_income"),
   ("other_income", "other_income"),
   ("others", "other_income"),
   ("speculative_income", "other_income")]

/-- `ZERODHA_CATEGORY_MAP` (lines 462-473). -/
def ZERODHA_CATEGORY_MAP : List (String × String) :=
  [("stcg_equity", "stcg_111a"),
   ("stcg_equity_delivery", "stcg_111a"),
   ("ltcg_equity", "ltcg_112a"),
   ("ltcg_equity_delivery", "ltcg_112a"),
   ("intraday_equity", "speculative_income"),
   ("speculative", "speculative_income"),
   ("futures_options", "non_speculative_income"),
   ("fno", "non_speculative_income"),
   ("currency_fno", "non_speculative_income"),
   ("commodity_fno", "non_speculative_income")]

/-- The category-normalisation step of `read_income_sheet` and `read_tis`:
`INCOME_CATEGORY_MAP.get(_slugify(raw), "other_income")`. -/
def income_categorize (raw : String) : String :=
  (List.lookup (_slugify raw) INCOME_CATEGORY_MAP).getD "other_income"

/-- The category-normalisation step of `read_zerodha`:
`ZERODHA_CATEGORY_MAP.get(_slugify(raw), "other_gains")`. -/
def zerodha_categorize (raw : String) : String :=
  (List.lookup (_slugify raw) ZERODHA_CATEGORY_MAP).getD "other_gains"

/-! ### Parser row loops (itr2_automation.py lines 186-459)

Each parser first resolves its columns with `_pick_column` and then runs a
single `for _, row in df.iterrows()` loop.  The loops are embedded over a
`Row`: the value of the identifying-label column, the value of the amount
column, and (where the parser probes an optional descriptive column) that
column's value, `none` when the column is absent from the table. -/

/-- One table row, projected onto the columns a parser uses. -/
structure Row where
  label : Cell
  amount : Cell
  extra : Option Cell := none
  deriving DecidableEq

/-- Python `raw.upper().replace(" ", "")`, used to build deduction-section
keys (lines 228 and 387). -/
def sectionKey (raw : String) : String :=
  String.mk ((pyUpper raw).data.filter (fun c => c ≠ ' '))

/-- The row loop of `read_form16` (lines 198-231), parametrised by the
accumulated `Form16Data`. -/
def form16Loop (path : String) (data : Form16Data) : List Row → Except String Form16Data
  | [] => .ok data
  | row :: rest =>
    let raw_field := pyStrip row.label.pyStr
    if raw_field = "" then form16Loop path data rest
    else if row.amount.isna then form16Loop path data rest
    else
      match row.amount.toFloat with
      | none =>
        .error ("Invalid amount " ++ row.amount.pyRepr ++ " for field '" ++ raw_field
          ++ "' in " ++ path)
      | some amount_value =>
        let field_slug := _slugify raw_field
        let target := List.lookup field_slug FORM16_FIELD_MAP
        let data' :=
          if target = some "gross_salary" then
            { data with gross_salary := data.gross_salary + amount_value }
          else if target = some "exempt_allowances" then
            { data with exempt_allowances := data.exempt_allowances + amount_value }
          else if target = some "standard_deduction" then
            { data with standard_deduction := data.standard_deduction + amount_value }
          else if target = some "professional_tax" then
            { data with professional_tax := data.professional_tax + amount_value }
          else if target = some "other_income_declared" then
            { data with other_income_declared := data.other_income_declared + amount_value }
          else if target = some "tds" then
            { data with tds := data.tds + amount_value }
          else if pyStartsWith field_slug "section_80" ∨ pyStartsWith field_slug "80" then
            { data with deductions := data.deductions.addTo (sectionKey raw_field) amount_value }
          else
            { data with extras := data.extras.addTo raw_field amount_value }
        form16Loop path data' rest

/-- `read_form16` after column resolution: the loop started from a fresh
`Form16Data()`. -/
def read_form16 (path : String) (rows : List Row) : Except String Form16Data :=
  form16Loop path {} rows

/-- The row loop of `read_income_sheet` (lines 268-301). -/
def incomeLoop (path : String) (breakdown : IncomeBreakdown) :
    List Row → Except String IncomeBreakdown
  | [] => .ok breakdown
  | row :: rest =>
    let category_raw := pyStrip row.label.pyStr
    if category_raw = "" then incomeLoop path breakdown rest
    else if row.amount.isna then incomeLoop path breakdown rest
    else
      match row.amount.toFloat with
      | none =>
        .error ("Invalid amount " ++ row.amount.pyRepr ++ " for category '" ++ category_raw
          ++ "' in " ++ path)
      | some amount_value =>
        let category := income_categorize category_raw
        let b1 :=
          if category = "interest_income" then
            { breakdown with interest_income := breakdown.interest_income + amount_value }
          else if category = "dividend_income" then
            { breakdown with dividend_income := breakdown.dividend_income + amount_value }
          else if category = "rental_income" then
            { breakdown with rental_income := breakdown.rental_income + amount_value }
          else
            { breakdown with other_income := breakdown.other_income + amount_value }
        let entry : IncomeDetail :=
          { category := category_raw, mapped := category, amount := amount_value,
            description := row.extra }
        incomeLoop path { b1 with details := b1.details ++ [entry] } rest

/-- `read_income_sheet` after column resolution. -/
def read_income_sheet (path : String) (rows : List Row) : Except String IncomeBreakdown :=
  incomeLoop path {} rows

/-- The entry types that accumulate into `tax_paid` in `read_tis` (line 389). -/
def tisTaxpaidTypes : List String :=
  ["taxpaid", "tax_paid", "advance_tax", "self_assessment_tax"]

/-- The row loop of `read_tis` (lines 348-399), accumulating the income
breakdown, the deduction mapping and the tax-paid scalar. -/
def tisLoop (path : String) (inc : IncomeBreakdown) (ded : StrMap) (tax_paid : ℚ) :
    List Row → Except String (IncomeBreakdown × StrMap × ℚ)
  | [] => .ok (inc, ded, tax_paid)
  | row :: rest =>
    let entry_type_raw := pyStrip row.label.pyStr
    if entry_type_raw = "" then tisLoop path inc ded tax_paid rest
    else if row.amount.isna then tisLoop path inc ded tax_paid rest
    else
      match row.amount.toFloat with
      | none =>
        .error ("Invalid amount " ++ row.amount.pyRepr ++ " for entry '" ++ entry_type_raw
          ++ "' in " ++ path)
      | some amount_value =>
        let entry_type := _slugify entry_type_raw
        let category_value := match row.extra with | some c => pyStrip c.pyStr | none => ""
        if entry_type = "income" ∨ entry_type = "reported_income" then
          let mapped := income_categorize category_value
          let inc1 :=
            if mapped = "interest_income" then
              { inc with interest_income := inc.interest_income + amount_value }
            else if mapped = "dividend_income" then
              { inc with dividend_income := inc.dividend_income + amount_value }
            else if mapped = "rental_income" then
              { inc with rental_income := inc.rental_income + amount_value }
            else
              { inc with other_income := inc.other_income + amount_value }
          let entry : IncomeDetail :=
            { typeRaw := some entry_type_raw, category := category_value, mapped := mapped,
              amount := amount_value }
          tisLoop path { inc1 with details := inc1.details ++ [entry] } ded tax_paid rest
        else if entry_type = "deduction" ∨ entry_type = "reported_deduction" then
          let section_name := sectionKey (if category_value = "" then "Deduction" else category_value)
          tisLoop path inc (ded.addTo section_name amount_value) tax_paid rest
        else if entry_type ∈ tisTaxpaidTypes then
          tisLoop path inc ded (tax_paid + amount_value) rest
        else
          let entry : IncomeDetail :=
            { typeRaw := some entry_type_raw, category := category_value, mapped := "ignored",
              amount := amount_value }
          tisLoop path { inc with details := inc.details ++ [entry] } ded tax_paid rest

/-- `read_tis` after column resolution. -/
def read_tis (path : String) (rows : List Row) :
    Except String (IncomeBreakdown × StrMap × ℚ) :=
  tisLoop path {} [] 0 rows

/-- The row loop of `read_zerodha` (lines 422-457). -/
def zerodhaLoop (path : String) (breakdown : CapitalGainsBreakdown) :
    List Row → Except String CapitalGainsBreakdown
  | [] => .ok breakdown
  | row :: rest =>
    let type_raw := pyStrip row.label.pyStr
    if type_raw = "" then zerodhaLoop path breakdown rest
    else if row.amount.isna then zerodhaLoop path breakdown rest
    else
      match row.amount.toFloat with
      | none =>
        .error ("Invalid amount " ++ row.amount.pyRepr ++ " for trade type '" ++ type_raw
          ++ "' in " ++ path)
      | some amount_value =>
        let category := zerodha_categorize type_raw
        let b1 :=
          if category = "stcg_111a" then
            { breakdown with stcg_111a := breakdown.stcg_111a + amount_value }
          else if category = "ltcg_112a" then
            { breakdown with ltcg_112a := breakdown.ltcg_112a + amount_value }
          else if category = "speculative_income" then
            { breakdown with speculative_income := breakdown.speculative_income + amount_value }
          else if category = "non_speculative_income" then
            { breakdown with
                non_speculative_income := breakdown.non_speculative_income + amount_value }
          else
            { breakdown with other_gains := breakdown.other_gains + amount_value }
        let entry : GainsDetail :=
          { typeRaw := type_raw, mapped := category, amount := amount_value,
            description := row.extra }
        zerodhaLoop path { b1 with details := b1.details ++ [entry] } rest

/-- `read_zerodha` after column resolution. -/
def read_zerodha (path : String) (rows : List Row) : Except String CapitalGainsBreakdown :=
  zerodhaLoop path {} rows

/-! ### Tax calculation (itr2_automation.py lines 481-559) -/

/-- The slab loop of `_slab_tax_old_regime`.  The unbounded last slab
(`math.inf` in the source) is modelled by `none`; for it
`span = min(remaining, inf) = remaining`. -/
def slabLoop : List (Option ℚ × ℚ) → ℚ → ℚ → ℚ
  | [], _, tax => tax
  | (width, rate) :: rest, remaining, tax =>
    if remaining ≤ 0 then tax
    else
      let span := match width with | some w => min remaining w | none => remaining
      slabLoop rest (remaining - span) (tax + span * rate)

/-- The slab table of `_slab_tax_old_regime` (lines 484-489). -/
def slabs : List (Option ℚ × ℚ) :=
  [(some 250000, 0), (some 250000, 0.05), (some 500000, 0.20), (none, 0.30)]

/-- `_slab_tax_old_regime` (lines 481-500); the `lower_limit` local of the
source is never read and is omitted. -/
def _slab_tax_old_regime (taxable_income : ℚ) : ℚ :=
  slabLoop slabs taxable_income 0

/-- The local `chapter_vi_total` of `compute_tax` (line 512). -/
def chapter_vi_total (form16 : Form16Data) (tis_deductions : StrMap) : ℚ :=
  form16.deductions.sumValues + tis_deductions.sumValues

/-- The local `gross_total_income` of `compute_tax` (lines 515-524). -/
def gross_total_income (form16 : Form16Data) (other_income : IncomeBreakdown)
    (zerodha : CapitalGainsBreakdown) : ℚ :=
  form16.salary_income + form16.other_income_declared + other_income.total
    + zerodha.speculative_income + zerodha.non_speculative_income
    + zerodha.stcg_111a + zerodha.ltcg_112a + zerodha.other_gains

/-- The local `total_income_post_deductions` of `compute_tax` (line 526). -/
def total_income_post_deductions (form16 : Form16Data) (other_income : IncomeBreakdown)
    (zerodha : CapitalGainsBreakdown) (tis_deductions : StrMap) : ℚ :=
  max 0 (gross_total_income form16 other_income zerodha - chapter_vi_total form16 tis_deductions)

/-- The local `income_for_slabs` of `compute_tax` (lines 529-532). -/
def income_for_slabs (form16 : Form16Data) (other_income : IncomeBreakdown)
    (zerodha : CapitalGainsBreakdown) (tis_deductions : StrMap) : ℚ :=
  max 0 (total_income_post_deductions form16 other_income zerodha tis_deductions
    - max 0 zerodha.stcg_111a - max 0 zerodha.ltcg_112a)

/-- `compute_tax` (lines 503-559).  The source initialises `rebate_87a = 0.0`
and overwrites it inside the `if`; here the `if` produces the value
directly, and the source's `slab_tax -= rebate_87a` (a no-op subtraction of
`0` outside the `if`) becomes an unconditional subtraction. -/
def compute_tax (form16 : Form16Data) (other_income : IncomeBreakdown)
    (zerodha : CapitalGainsBreakdown) (tis_deductions : StrMap)
    (tis_tax_paid : ℚ) : TaxComputation :=
  let total_income_pd := total_income_post_deductions form16 other_income zerodha tis_deductions
  let stcg := max 0 zerodha.stcg_111a
  let ltcg := max 0 zerodha.ltcg_112a
  let slab_tax := _slab_tax_old_regime (income_for_slabs form16 other_income zerodha tis_deductions)
  let rebate_87a := if total_income_pd ≤ 500000 then min 12500 slab_tax else 0
  let slab_tax := slab_tax - rebate_87a
  let stcg_tax := 0.15 * max 0 stcg
  let ltcg_taxable := max 0 (ltcg - 100000)
  let ltcg_tax := 0.10 * ltcg_taxable
  let tax_before_cess := slab_tax + stcg_tax + ltcg_tax
  let cess := 0.04 * tax_before_cess
  let tax_payable := tax_before_cess + cess
  let tds_total := form16.tds + tis_tax_paid
  { total_income := total_income_pd
    tax_before_cess := tax_before_cess
    health_education_cess := cess
    tax_payable := tax_payable
    tax_payable_after_tds := tax_payable - tds_total
    rebate_87a := rebate_87a }

/-! ### Spec-side characterisations used by the claims -/

/-- The four-bracket schedule exactly as the spec words it: 0% on the first
250,000 units, 5% on the next 250,000, 20% on the next 500,000 and 30% on
any remainder above 1,000,000. -/
def slab_spec (x : ℚ) : ℚ :=
  0.05 * min (max (x - 250000) 0) 250000
    + 0.20 * min (max (x - 500000) 0) 500000
    + 0.30 * max (x - 1000000) 0

/-- The accepted (non-skipped) rows of a table, as (trimmed label, parsed
amount) pairs: label non-blank after trimming, amount cell present, and the
amount numerically parseable. -/
def acceptedEntries (rows : List Row) : List (String × ℚ) :=
  rows.filterMap fun r =>
    if pyStrip r.label.pyStr = "" then none
    else if r.amount.isna then none
    else (r.amount.toFloat).map (fun v => (pyStrip r.label.pyStr, v))

/-- The amounts of the accepted rows, in row order. -/
def acceptedAmounts (rows : List Row) : List ℚ :=
  (acceptedEntries rows).map Prod.snd

/-- The accepted rows of a TIS table that produce a detail record: the
income-typed rows and the rows of unrecognized entry type; accepted
deduction-typed and tax-paid-typed rows produce none. -/
def tisDetailEntries (rows : List Row) : List (String × ℚ) :=
  rows.filterMap fun r =>
    if pyStrip r.label.pyStr = "" then none
    else if r.amount.isna then none
    else match r.amount.toFloat with
      | none => none
      | some v =>
        let et := _slugify (pyStrip r.label.pyStr)
        if et = "deduction" ∨ et = "reported_deduction" ∨ et ∈ tisTaxpaidTypes then none
        else some (pyStrip r.label.pyStr, v)

/-- `sub` occurs as a contiguous substring of `s`. -/
def containsStr (s sub : String) : Prop :=
  ∃ l r, s = l ++ sub ++ r

/-! ### Shared helper lemmas -/

theorem lookup_mem_values {α β : Type} [BEq α] [LawfulBEq α] (k : α) (l : List (α × β)) (v : β)
    (h : List.lookup k l = some v) : v ∈ l.map Prod.snd := by
  induction l with
  | nil => simp [List.lookup] at h
  | cons p rest ih =>
    rw [List.lookup] at h
    by_cases hk : k == p.1
    · simp [hk] at h
      simp [← h]
    · simp [hk] at h
      simp [ih h]

/-! ### Claims -/

/-- C1: for the concrete scenario — salary aggregate with gross salary
1,200,000, exempt allowances 50,000, standard deduction 50,000, professional
tax 2,400, tax-deducted 80,000, empty deduction mapping; zero combined
income; capital gains short-term-111A = 150,000 and long-term-112A = 120,000
and all other buckets zero; empty external deductions and zero external
tax-paid — `compute_tax` returns total income post-deductions 1,367,600, tax
before cess 166,280, cess 6,651.20, tax payable 172,931.20, rebate 0 and net
payable after prepaid tax 92,931.20. -/
theorem compute_tax_concrete_scenario :
    (compute_tax
        { gross_salary := 1200000, exempt_allowances := 50000, standard_deduction := 50000,
          professional_tax := 2400, tds := 80000 }
        {} { stcg_111a := 150000, ltcg_112a := 120000 } [] 0)
      = { total_income := 1367600, tax_before_cess := 166280,
          health_education_cess := 6651.2, tax_payable := 172931.2,
          tax_payable_after_tds := 92931.2, rebate_87a := 0 } := by
  norm_num [compute_tax, total_income_post_deductions, gross_total_income, chapter_vi_total,
    income_for_slabs, Form16Data.salary_income, IncomeBreakdown.total, StrMap.sumValues,
    _slab_tax_old_regime, slabs, slabLoop, TaxComputation.mk.injEq]

/-- Evaluation of the slab loop for incomes in the first bracket. -/
theorem slab_eval_A (x : ℚ) (h0 : 0 < x) (h1 : x ≤ 250000) : _slab_tax_old_regime x = 0 := by
  simp only [_slab_tax_old_regime, slabs, slabLoop]
  rw [min_eq_left h1]
  simp [not_le.mpr h0]

theorem slab_eval_B (x : ℚ) (h1 : 250000 < x) (h2 : x ≤ 500000) :
    _slab_tax_old_regime x = 0.05 * (x - 250000) := by
  simp only [_slab_tax_old_regime, slabs, slabLoop]
  rw [min_eq_right (by linarith : (250000:ℚ) ≤ x),
      min_eq_left (by linarith : x - 250000 ≤ (250000:ℚ))]
  rw [if_neg (by linarith : ¬ x ≤ (0:ℚ)), if_neg (by linarith : ¬ x - 250000 ≤ (0:ℚ))]
  simp
  ring

theorem slab_eval_C (x : ℚ) (h1 : 500000 < x) (h2 : x ≤ 1000000) :
    _slab_tax_old_regime x = 12500 + 0.20 * (x - 500000) := by
  simp only [_slab_tax_old_regime, slabs, slabLoop]
  rw [min_eq_right (by linarith : (250000:ℚ) ≤ x),
      min_eq_right (by linarith : (250000:ℚ) ≤ x - 250000),
      min_eq_left (by linarith : x - 250000 - 250000 ≤ (500000:ℚ))]
  rw [if_neg (by linarith : ¬ x ≤ (0:ℚ)), if_neg (by linarith : ¬ x - 250000 ≤ (0:ℚ)),
      if_neg (by linarith : ¬ x - 250000 - 250000 ≤ (0:ℚ))]
  simp
  ring

theorem slab_eval_D (x : ℚ) (h1 : 1000000 < x) :
    _slab_tax_old_regime x = 112500 + 0.30 * (x - 1000000) := by
  simp only [_slab_tax_old_regime, slabs, slabLoop]
  rw [min_eq_right (by linarith : (250000:ℚ) ≤ x),
      min_eq_right (by linarith : (250000:ℚ) ≤ x - 250000),
      min_eq_right (by linarith : (500000:ℚ) ≤ x - 250000 - 250000)]
  rw [if_neg (by linarith : ¬ x ≤ (0:ℚ)), if_neg (by linarith : ¬ x - 250000 ≤ (0:ℚ)),
      if_neg (by linarith : ¬ x - 250000 - 250000 ≤ (0:ℚ)),
      if_neg (by linarith : ¬ x - 250000 - 250000 - 500000 ≤ (0:ℚ))]
  ring

/-- C2: for every non-negative income `x`, `_slab_tax_old_regime` returns the
progressive four-bracket tax: 0% on the first 250,000 units, 5% on the next
250,000, 20% on the next 500,000, 30% on the remainder above 1,000,000. -/
theorem slab_tax_is_bracket_schedule (x : ℚ) (hx : 0 ≤ x) :
    _slab_tax_old_regime x = slab_spec x := by
  rcases eq_or_lt_of_le hx with h0 | h0
  · rw [← h0]
    norm_num [_slab_tax_old_regime, slabs, slabLoop, slab_spec]
  rcases le_or_lt x 250000 with h1 | h1
  · rw [slab_eval_A x h0 h1, slab_spec]
    rw [max_eq_right (by linarith : x - 250000 ≤ (0:ℚ)),
        max_eq_right (by linarith : x - 500000 ≤ (0:ℚ)),
        max_eq_right (by linarith : x - 1000000 ≤ (0:ℚ))]
    norm_num
  rcases le_or_lt x 500000 with h2 | h2
  · rw [slab_eval_B x h1 h2, slab_spec]
    rw [max_eq_left (by linarith : (0:ℚ) ≤ x - 250000),
        min_eq_left (by linarith : x - 250000 ≤ (250000:ℚ)),
        max_eq_right (by linarith : x - 500000 ≤ (0:ℚ)),
        max_eq_right (by linarith : x - 1000000 ≤ (0:ℚ))]
    norm_num
  rcases le_or_lt x 1000000 with h3 | h3
  · rw [slab_eval_C x h2 h3, slab_spec]
    rw [max_eq_left (by linarith : (0:ℚ) ≤ x - 250000),
        min_eq_right (by linarith : (250000:ℚ) ≤ x - 250000),
        max_eq_left (by linarith : (0:ℚ) ≤ x - 500000),
        min_eq_left (by linarith : x - 500000 ≤ (500000:ℚ)),
        max_eq_right (by linarith : x - 1000000 ≤ (0:ℚ))]
    norm_num
  · rw [slab_eval_D x h3, slab_spec]
    rw [max_eq_left (by linarith : (0:ℚ) ≤ x - 250000),
        min_eq_right (by linarith : (250000:ℚ) ≤ x - 250000),
        max_eq_left (by linarith : (0:ℚ) ≤ x - 500000),
        min_eq_right (by linarith : (500000:ℚ) ≤ x - 500000),
        max_eq_left (by linarith : (0:ℚ) ≤ x - 1000000)]
    norm_num

/-- Witness for C2 at `x = 1097600`: the slab tax is the bracket formula
there (their common value is 141,780). -/
theorem slab_tax_is_bracket_schedule_witness :
    0 ≤ (1097600 : ℚ) ∧ _slab_tax_old_regime 1097600 = slab_spec 1097600 :=
  ⟨by decide, slab_tax_is_bracket_schedule 1097600 (by decide)⟩

/-- The salary aggregate of the spec's rebate-boundary scenario: gross salary
500,000 and nothing else, so total income post-deductions is exactly 500,000
and the slab tax on it is 12,500. -/
def rebateBoundaryForm16 : Form16Data := { gross_salary := 500000 }

/-- C3: in `compute_tax` the rebate is applied iff total income
post-deductions is at most 500,000, in which case it equals
`min 12500 slab_tax` and is subtracted from the slab tax inside tax before
cess; at the boundary (total income exactly 500,000, slab tax 12,500) the
recorded rebate is 12,500 and the slab contribution to tax before cess is 0. -/
theorem rebate_rule :
    (∀ f o z d tp, (compute_tax f o z d tp).rebate_87a =
        if total_income_post_deductions f o z d ≤ 500000
        then min 12500 (_slab_tax_old_regime (income_for_slabs f o z d)) else 0) ∧
    (∀ f o z d tp, (compute_tax f o z d tp).tax_before_cess =
        (_slab_tax_old_regime (income_for_slabs f o z d) - (compute_tax f o z d tp).rebate_87a)
          + 0.15 * max 0 (max 0 z.stcg_111a) + 0.10 * max 0 (max 0 z.ltcg_112a - 100000)) ∧
    total_income_post_deductions rebateBoundaryForm16 {} {} [] = 500000 ∧
    _slab_tax_old_regime (income_for_slabs rebateBoundaryForm16 {} {} []) = 12500 ∧
    (compute_tax rebateBoundaryForm16 {} {} [] 0).rebate_87a = 12500 ∧
    (compute_tax rebateBoundaryForm16 {} {} [] 0).tax_before_cess = 0 := by
  refine ⟨fun f o z d tp => rfl, fun f o z d tp => rfl, ?_, ?_, ?_, ?_⟩ <;>
    norm_num [compute_tax, rebateBoundaryForm16, total_income_post_deductions,
      gross_total_income, chapter_vi_total, income_for_slabs, Form16Data.salary_income,
      IncomeBreakdown.total, StrMap.sumValues, _slab_tax_old_regime, slabs, slabLoop]

/-- C5: the category normalisers are total: for every input string the
income normaliser returns one of the four canonical income categories
(falling back to `other_income`) and the broker normaliser one of the five
canonical gains categories (falling back to `other_gains`); both are pure
functions of the input string. -/
theorem categorize_total (s : String) :
    income_categorize s ∈ ["interest_income", "dividend_income", "rental_income", "other_income"]
      ∧ zerodha_categorize s ∈
        ["stcg_111a", "ltcg_112a", "speculative_income", "non_speculative_income", "other_gains"] := by
  constructor
  · cases h : List.lookup (_slugify s) INCOME_CATEGORY_MAP with
    | none => simp [income_categorize, h]
    | some v =>
      have hv := lookup_mem_values _ _ _ h
      simp only [income_categorize, h, Option.getD_some]
      fin_cases hv <;> simp
  · cases h : List.lookup (_slugify s) ZERODHA_CATEGORY_MAP with
    | none => simp [zerodha_categorize, h]
    | some v =>
      have hv := lookup_mem_values _ _ _ h
      simp only [zerodha_categorize, h, Option.getD_some]
      fin_cases hv <;> simp

/-- C6: a candidate synonym resolves to a table header iff their canonical
slugs (`_slugify`) are equal — lowercase, non-alphanumeric runs collapsed to
one separator, leading/trailing separators trimmed — so "Section 80C (PF)",
"section_80c_pf" and "SECTION 80C PF" all carry the same slug; groups of
alternatives are tried in order and names within a group in order, the
first match winning. -/
theorem column_resolution_slug_matching :
    (∀ cols name c, slug_to_original cols (_slugify name) = some c →
        c ∈ cols ∧ _slugify c = _slugify name) ∧
    (∀ cols name, (∃ c ∈ cols, _slugify c = _slugify name) →
        (slug_to_original cols (_slugify name)).isSome) ∧
    (∀ cols g gs c, (g.findSome? fun n => slug_to_original cols (_slugify n)) = some c →
        _pick_column cols (g :: gs) = .ok c) ∧
    (∀ cols n ns gs c, slug_to_original cols (_slugify n) = some c →
        _pick_column cols ((n :: ns) :: gs) = .ok c) ∧
    _slugify "Section 80C (PF)" = "section_80c_pf" ∧
    _slugify "section_80c_pf" = "section_80c_pf" ∧
    _slugify "SECTION 80C PF" = "section_80c_pf" := by
  refine ⟨?_, ?_, ?_, ?_, by decide, by decide, by decide⟩
  · intro cols name c h
    refine ⟨List.mem_reverse.mp (List.mem_of_find?_eq_some h), ?_⟩
    have := List.find?_some h
    simpa using this
  · intro cols name ⟨c, hc, hs⟩
    rw [slug_to_original, List.find?_isSome]
    exact ⟨c, List.mem_reverse.mpr hc, by simpa using hs⟩
  · intro cols g gs c h
    simp [_pick_column, List.findSome?_cons, h]
  · intro cols n ns gs c h
    simp [_pick_column, List.findSome?_cons, h]

/-- Loop invariant for `read_zerodha`: a successful run adds exactly the
accepted rows' amounts to the accumulator's bucket total. -/
theorem zerodhaLoop_total (path : String) (rows : List Row) :
    ∀ acc b, zerodhaLoop path acc rows = .ok b →
      b.total = acc.total + (acceptedAmounts rows).sum := by
  induction rows with
  | nil =>
    intro acc b h
    simp only [zerodhaLoop] at h
    cases h
    simp [acceptedAmounts, acceptedEntries]
  | cons r rest ih =>
    intro acc b h
    simp only [zerodhaLoop] at h
    by_cases h1 : pyStrip r.label.pyStr = ""
    · rw [if_pos h1] at h
      rw [ih _ _ h]
      simp [acceptedAmounts, acceptedEntries, h1]
    · rw [if_neg h1] at h
      by_cases h2 : r.amount.isna = true
      · rw [if_pos h2] at h
        rw [ih _ _ h]
        simp [acceptedAmounts, acceptedEntries, h1, h2]
      · rw [if_neg h2] at h
        cases hf : r.amount.toFloat with
        | none =>
          simp only [hf] at h
          exact Except.noConfusion h
        | some v =>
          simp only [hf] at h
          rw [ih _ _ h]
          have hacc : (acceptedAmounts (r :: rest)).sum = v + (acceptedAmounts rest).sum := by
            simp [acceptedAmounts, acceptedEntries, h1, h2, hf]
          rw [hacc]
          split_ifs <;> simp [CapitalGainsBreakdown.total] <;> ring

/-- Loop invariant for `read_zerodha`: a successful run appends one detail
record per accepted row, in row order, carrying the trimmed label and the
parsed amount. -/
theorem zerodhaLoop_details (path : String) (rows : List Row) :
    ∀ acc b, zerodhaLoop path acc rows = .ok b →
      b.details.map (fun d => (d.typeRaw, d.amount)) =
        acc.details.map (fun d => (d.typeRaw, d.amount)) ++ acceptedEntries rows := by
  induction rows with
  | nil =>
    intro acc b h
    simp only [zerodhaLoop] at h
    cases h
    simp [acceptedEntries]
  | cons r rest ih =>
    intro acc b h
    simp only [zerodhaLoop] at h
    by_cases h1 : pyStrip r.label.pyStr = ""
    · rw [if_pos h1] at h
      rw [ih _ _ h]
      simp [acceptedEntries, h1]
    · rw [if_neg h1] at h
      by_cases h2 : r.amount.isna = true
      · rw [if_pos h2] at h
        rw [ih _ _ h]
        simp [acceptedEntries, h1, h2]
      · rw [if_neg h2] at h
        cases hf : r.amount.toFloat with
        | none =>
          simp only [hf] at h
          exact Except.noConfusion h
        | some v =>
          simp only [hf] at h
          rw [ih _ _ h]
          have hacc : acceptedEntries (r :: rest) = (pyStrip r.label.pyStr, v) :: acceptedEntries rest := by
            simp [acceptedEntries, h1, h2, hf]
          rw [hacc]
          split_ifs <;> simp [List.append_assoc]

theorem incomeLoop_details (path : String) (rows : List Row) :
    ∀ acc b, incomeLoop path acc rows = .ok b →
      b.details.map (fun d => (d.category, d.amount)) =
        acc.details.map (fun d => (d.category, d.amount)) ++ acceptedEntries rows := by
  induction rows with
  | nil =>
    intro acc b h
    simp only [incomeLoop] at h
    cases h
    simp [acceptedEntries]
  | cons r rest ih =>
    intro acc b h
    simp only [incomeLoop] at h
    by_cases h1 : pyStrip r.label.pyStr = ""
    · rw [if_pos h1] at h
      rw [ih _ _ h]
      simp [acceptedEntries, h1]
    · rw [if_neg h1] at h
      by_cases h2 : r.amount.isna = true
      · rw [if_pos h2] at h
        rw [ih _ _ h]
        simp [acceptedEntries, h1, h2]
      · rw [if_neg h2] at h
        cases hf : r.amount.toFloat with
        | none =>
          simp only [hf] at h
          exact Except.noConfusion h
        | some v =>
          simp only [hf] at h
          rw [ih _ _ h]
          have hacc : acceptedEntries (r :: rest) = (pyStrip r.label.pyStr, v) :: acceptedEntries rest := by
            simp [acceptedEntries, h1, h2, hf]
          rw [hacc]
          split_ifs <;> simp [List.append_assoc]

/-- Loop invariant for `read_tis`: a successful run appends one detail record
per detail-producing accepted row (income-typed or unrecognized-typed), in
row order; deduction-typed and tax-paid-typed rows append none. -/
theorem tisLoop_details (path : String) (rows : List Row) :
    ∀ inc ded tp out, tisLoop path inc ded tp rows = .ok out →
      out.1.details.map (fun d => (d.typeRaw.getD "", d.amount)) =
        inc.details.map (fun d => (d.typeRaw.getD "", d.amount)) ++ tisDetailEntries rows := by
  induction rows with
  | nil =>
    intro inc ded tp out h
    simp only [tisLoop] at h
    cases h
    simp [tisDetailEntries]
  | cons r rest ih =>
    intro inc ded tp out h
    simp only [tisLoop] at h
    by_cases h1 : pyStrip r.label.pyStr = ""
    · rw [if_pos h1] at h
      rw [ih _ _ _ _ h]
      simp [tisDetailEntries, h1]
    · rw [if_neg h1] at h
      by_cases h2 : r.amount.isna = true
      · rw [if_pos h2] at h
        rw [ih _ _ _ _ h]
        simp [tisDetailEntries, h1, h2]
      · rw [if_neg h2] at h
        cases hf : r.amount.toFloat with
        | none =>
          simp only [hf] at h
          exact Except.noConfusion h
        | some v =>
          simp only [hf] at h
          by_cases h3 : _slugify (pyStrip r.label.pyStr) = "income"
              ∨ _slugify (pyStrip r.label.pyStr) = "reported_income"
          · rw [if_pos h3] at h
            rw [ih _ _ _ _ h]
            have hacc : tisDetailEntries (r :: rest)
                = (pyStrip r.label.pyStr, v) :: tisDetailEntries rest := by
              rcases h3 with h3 | h3 <;>
                simp [tisDetailEntries, h1, h2, hf, h3, tisTaxpaidTypes]
            rw [hacc]
            split_ifs <;> simp [List.append_assoc]
          · rw [if_neg h3] at h
            by_cases h4 : _slugify (pyStrip r.label.pyStr) = "deduction"
                ∨ _slugify (pyStrip r.label.pyStr) = "reported_deduction"
            · rw [if_pos h4] at h
              rw [ih _ _ _ _ h]
              have hacc : tisDetailEntries (r :: rest) = tisDetailEntries rest := by
                rcases h4 with h4 | h4 <;>
                  simp [tisDetailEntries, h1, h2, hf, h4, tisTaxpaidTypes]
              rw [hacc]
            · rw [if_neg h4] at h
              by_cases h5 : _slugify (pyStrip r.label.pyStr) ∈ tisTaxpaidTypes
              · rw [if_pos h5] at h
                rw [ih _ _ _ _ h]
                have hacc : tisDetailEntries (r :: rest) = tisDetailEntries rest := by
                  simp [tisDetailEntries, h1, h2, hf, h5]
                rw [hacc]
              · rw [if_neg h5] at h
                rw [ih _ _ _ _ h]
                have hg : ¬ (_slugify (pyStrip r.label.pyStr) = "deduction"
                    ∨ _slugify (pyStrip r.label.pyStr) = "reported_deduction"
                    ∨ _slugify (pyStrip r.label.pyStr) ∈ tisTaxpaidTypes) := by
                  rintro (hx | hx | hx)
                  · exact h4 (Or.inl hx)
                  · exact h4 (Or.inr hx)
                  · exact h5 hx
                have hacc : tisDetailEntries (r :: rest)
                    = (pyStrip r.label.pyStr, v) :: tisDetailEntries rest := by
                  simp [tisDetailEntries, h1, h2, hf, hg]
                rw [hacc]
                simp [List.append_assoc]

/-- C4: for every capital-gains table the broker-gains parser accepts without
error, the sum of the five output buckets equals the sum of the amounts of
all accepted (non-skipped) rows, signs preserved. -/
theorem zerodha_sum_invariant (path : String) (rows : List Row) (b : CapitalGainsBreakdown)
    (h : read_zerodha path rows = .ok b) :
    b.total = (acceptedAmounts rows).sum := by
  have ht := zerodhaLoop_total path rows {} b h
  simpa [CapitalGainsBreakdown.total] using ht

/-- A concrete broker-gains table: a short-term gain, a blank-label row, a
long-term loss, an unrecognized trade type, and a row with a missing amount. -/
def zerodhaWitnessRows : List Row :=
  [{ label := .text "STCG-Equity", amount := .num 100 },
   { label := .text "  ", amount := .num 5 },
   { label := .text "LTCG-Equity", amount := .num (-40) },
   { label := .text "Mystery Gains", amount := .num 7 },
   { label := .text "FNO", amount := .empty }]

/-- Witness for C4 on `zerodhaWitnessRows`: buckets 100, -40 and 7 sum to the
accepted amounts 100 + (-40) + 7. -/
theorem zerodha_sum_invariant_witness :
    CapitalGainsBreakdown.total
      { stcg_111a := 100, ltcg_112a := -40, other_gains := 7,
        details := [{ typeRaw := "STCG-Equity", mapped := "stcg_111a", amount := 100 },
                    { typeRaw := "LTCG-Equity", mapped := "ltcg_112a", amount := -40 },
                    { typeRaw := "Mystery Gains", mapped := "other_gains", amount := 7 }] }
      = (acceptedAmounts zerodhaWitnessRows).sum :=
  zerodha_sum_invariant "zerodha.csv" zerodhaWitnessRows _
    (by simp [zerodhaWitnessRows, read_zerodha, zerodhaLoop, Cell.pyStr, pyStrip, Cell.isna,
      Cell.toFloat, zerodha_categorize, _slugify, pyLower, slugChar, collapseUnd, stripUnd,
      ZERODHA_CATEGORY_MAP, List.lookup])

/-- A TIS row of entry type "Deduction" with a present, parseable amount:
it is accepted (it accumulates into the deductions mapping) but the source
appends no detail record for it. -/
def tisDeductionRow : Row :=
  { label := .text "Deduction", amount := .num 1000, extra := some (.text "80C") }

/-- C9 counterexample: a TIS table with the single accepted row
(Type "Deduction", Category "80C", Amount 1000) parses successfully with an
empty detail list, although it has one accepted row — so not every accepted
row of the second information-statement parser produces a detail record. -/
theorem detail_records_roundtrip_counterexample :
    (read_tis "tis.csv" [tisDeductionRow]).map (fun out => out.1.details.length) = .ok 0 ∧
    (acceptedEntries [tisDeductionRow]).length = 1 := by
  constructor
  · simp [read_tis, tisLoop, tisDeductionRow, Cell.pyStr, pyStrip, Cell.isna, Cell.toFloat,
      _slugify, pyLower, slugChar, collapseUnd, stripUnd, tisTaxpaidTypes, sectionKey, pyUpper,
      StrMap.addTo, List.lookup, Except.map]
  · simp [acceptedEntries, tisDeductionRow, Cell.pyStr, pyStrip, Cell.isna, Cell.toFloat]

/-- C9 (amended): every accepted row of the income-statement and broker-gains
parsers produces exactly one detail record, in original row order, with the
parsed amount; for the second information-statement parser this holds for
the income-typed and unrecognized-typed rows, while accepted deduction-typed
and tax-paid-typed rows produce no detail record. -/
theorem detail_records_roundtrip :
    (∀ path rows b, read_income_sheet path rows = .ok b →
        b.details.map (fun d => (d.category, d.amount)) = acceptedEntries rows) ∧
    (∀ path rows b, read_zerodha path rows = .ok b →
        b.details.map (fun d => (d.typeRaw, d.amount)) = acceptedEntries rows) ∧
    (∀ path rows out, read_tis path rows = .ok out →
        out.1.details.map (fun d => (d.typeRaw.getD "", d.amount)) = tisDetailEntries rows) := by
  refine ⟨?_, ?_, ?_⟩
  · intro path rows b h
    simpa using incomeLoop_details path rows {} b h
  · intro path rows b h
    simpa using zerodhaLoop_details path rows {} b h
  · intro path rows out h
    simpa using tisLoop_details path rows {} [] 0 out h

/-- C7: in every parser, a row whose identifying label is non-blank and whose
amount cell is present but not numerically parseable makes the parse fail
with an input-format error whose message contains the row's label, the raw
amount value and the source file; no aggregate is returned. -/
theorem bad_numeric_fails (path : String) (r : Row) (rest : List Row)
    (f : Form16Data) (ib : IncomeBreakdown) (inc : IncomeBreakdown) (ded : StrMap) (tp : ℚ)
    (z : CapitalGainsBreakdown)
    (hl : ¬ pyStrip r.label.pyStr = "") (hna : r.amount.isna = false)
    (hp : r.amount.toFloat = none) :
    (∃ msg, form16Loop path f (r :: rest) = .error msg ∧
      containsStr msg (pyStrip r.label.pyStr) ∧ containsStr msg r.amount.pyRepr ∧
      containsStr msg path) ∧
    (∃ msg, incomeLoop path ib (r :: rest) = .error msg ∧
      containsStr msg (pyStrip r.label.pyStr) ∧ containsStr msg r.amount.pyRepr ∧
      containsStr msg path) ∧
    (∃ msg, tisLoop path inc ded tp (r :: rest) = .error msg ∧
      containsStr msg (pyStrip r.label.pyStr) ∧ containsStr msg r.amount.pyRepr ∧
      containsStr msg path) ∧
    (∃ msg, zerodhaLoop path z (r :: rest) = .error msg ∧
      containsStr msg (pyStrip r.label.pyStr) ∧ containsStr msg r.amount.pyRepr ∧
      containsStr msg path) := by
  refine
    ⟨⟨"Invalid amount " ++ r.amount.pyRepr ++ " for field '" ++ pyStrip r.label.pyStr
        ++ "' in " ++ path, ?_, ?_, ?_, ?_⟩,
     ⟨"Invalid amount " ++ r.amount.pyRepr ++ " for category '" ++ pyStrip r.label.pyStr
        ++ "' in " ++ path, ?_, ?_, ?_, ?_⟩,
     ⟨"Invalid amount " ++ r.amount.pyRepr ++ " for entry '" ++ pyStrip r.label.pyStr
        ++ "' in " ++ path, ?_, ?_, ?_, ?_⟩,
     ⟨"Invalid amount " ++ r.amount.pyRepr ++ " for trade type '" ++ pyStrip r.label.pyStr
        ++ "' in " ++ path, ?_, ?_, ?_, ?_⟩⟩
  · simp [form16Loop, hl, hna, hp]
  · exact ⟨"Invalid amount " ++ r.amount.pyRepr ++ " for field '", "' in " ++ path,
      by simp [String.append_assoc]⟩
  · exact ⟨"Invalid amount ", " for field '" ++ pyStrip r.label.pyStr ++ "' in " ++ path,
      by simp [String.append_assoc]⟩
  · exact ⟨"Invalid amount " ++ r.amount.pyRepr ++ " for field '" ++ pyStrip r.label.pyStr
      ++ "' in ", "", by simp [String.append_assoc]⟩
  · simp [incomeLoop, hl, hna, hp]
  · exact ⟨"Invalid amount " ++ r.amount.pyRepr ++ " for category '", "' in " ++ path,
      by simp [String.append_assoc]⟩
  · exact ⟨"Invalid amount ", " for category '" ++ pyStrip r.label.pyStr ++ "' in " ++ path,
      by simp [String.append_assoc]⟩
  · exact ⟨"Invalid amount " ++ r.amount.pyRepr ++ " for category '" ++ pyStrip r.label.pyStr
      ++ "' in ", "", by simp [String.append_assoc]⟩
  · simp [tisLoop, hl, hna, hp]
  · exact ⟨"Invalid amount " ++ r.amount.pyRepr ++ " for entry '", "' in " ++ path,
      by simp [String.append_assoc]⟩
  · exact ⟨"Invalid amount ", " for entry '" ++ pyStrip r.label.pyStr ++ "' in " ++ path,
      by simp [String.append_assoc]⟩
  · exact ⟨"Invalid amount " ++ r.amount.pyRepr ++ " for entry '" ++ pyStrip r.label.pyStr
      ++ "' in ", "", by simp [String.append_assoc]⟩
  · simp [zerodhaLoop, hl, hna, hp]
  · exact ⟨"Invalid amount " ++ r.amount.pyRepr ++ " for trade type '", "' in " ++ path,
      by simp [String.append_assoc]⟩
  · exact ⟨"Invalid amount ", " for trade type '" ++ pyStrip r.label.pyStr ++ "' in " ++ path,
      by simp [String.append_assoc]⟩
  · exact ⟨"Invalid amount " ++ r.amount.pyRepr ++ " for trade type '" ++ pyStrip r.label.pyStr
      ++ "' in ", "", by simp [String.append_assoc]⟩

/-- Witness for C7: label "X" with amount "abc" fails all four parsers with a
message containing "X", "'abc'" and the file name. -/
theorem bad_numeric_fails_witness :
    (∃ msg, form16Loop "input.csv" {} [⟨Cell.text "X", Cell.text "abc", none⟩] = .error msg ∧
      containsStr msg "X" ∧ containsStr msg "'abc'" ∧ containsStr msg "input.csv") ∧
    (∃ msg, incomeLoop "input.csv" {} [⟨Cell.text "X", Cell.text "abc", none⟩] = .error msg ∧
      containsStr msg "X" ∧ containsStr msg "'abc'" ∧ containsStr msg "input.csv") ∧
    (∃ msg, tisLoop "input.csv" {} [] 0 [⟨Cell.text "X", Cell.text "abc", none⟩] = .error msg ∧
      containsStr msg "X" ∧ containsStr msg "'abc'" ∧ containsStr msg "input.csv") ∧
    (∃ msg, zerodhaLoop "input.csv" {} [⟨Cell.text "X", Cell.text "abc", none⟩] = .error msg ∧
      containsStr msg "X" ∧ containsStr msg "'abc'" ∧ containsStr msg "input.csv") :=
  bad_numeric_fails "input.csv" ⟨Cell.text "X", Cell.text "abc", none⟩ [] {} {} {} [] 0 {}
    (by decide) rfl rfl

/-- C8: in every parser, a row whose identifying label is blank after
trimming, or whose amount cell is blank/missing, is skipped: the loop
continues on the same accumulator, so the row contributes nothing to any
bucket, mapping, scalar or detail list, and raises no error. -/
theorem blank_row_skipped (path : String) (r : Row) (rest : List Row)
    (f : Form16Data) (ib : IncomeBreakdown) (inc : IncomeBreakdown) (ded : StrMap) (tp : ℚ)
    (z : CapitalGainsBreakdown)
    (h : pyStrip r.label.pyStr = "" ∨ r.amount.isna = true) :
    form16Loop path f (r :: rest) = form16Loop path f rest ∧
    incomeLoop path ib (r :: rest) = incomeLoop path ib rest ∧
    tisLoop path inc ded tp (r :: rest) = tisLoop path inc ded tp rest ∧
    zerodhaLoop path z (r :: rest) = zerodhaLoop path z rest := by
  rcases h with h | h
  · exact ⟨by simp [form16Loop, h], by simp [incomeLoop, h],
      by simp [tisLoop, h], by simp [zerodhaLoop, h]⟩
  · by_cases h1 : pyStrip r.label.pyStr = ""
    · exact ⟨by simp [form16Loop, h1], by simp [incomeLoop, h1],
        by simp [tisLoop, h1], by simp [zerodhaLoop, h1]⟩
    · exact ⟨by simp [form16Loop, h1, h], by simp [incomeLoop, h1, h],
        by simp [tisLoop, h1, h], by simp [zerodhaLoop, h1, h]⟩

/-- Witness for C8: a row with label " X " and a missing amount cell is
skipped by all four parsers. -/
theorem blank_row_skipped_witness :
    (form16Loop "input.csv" {} ({ label := Cell.text " X ", amount := Cell.empty } :: [])
      = form16Loop "input.csv" {} []) ∧
    (incomeLoop "input.csv" {} ({ label := Cell.text " X ", amount := Cell.empty } :: [])
      = incomeLoop "input.csv" {} []) ∧
    (tisLoop "input.csv" {} [] 0 ({ label := Cell.text " X ", amount := Cell.empty } :: [])
      = tisLoop "input.csv" {} [] 0 []) ∧
    (zerodhaLoop "input.csv" {} ({ label := Cell.text " X ", amount := Cell.empty } :: [])
      = zerodhaLoop "input.csv" {} []) :=
  blank_row_skipped "input.csv" { label := Cell.text " X ", amount := Cell.empty } [] {} {} {}
    [] 0 {} (Or.inr rfl)

/-- C10: in every parser, a row whose label cell is missing (NaN) is not
skipped: `str(nan)` is the non-empty text "nan", so the row is processed
normally — the amount lands in the fallback bucket (the extras mapping under
key "nan" for the salary parser, the "ignored" detail list for the TIS
parser) and, where the parser produces details, a detail record is appended. -/
theorem nan_label_processed (path : String) (rest : List Row) (v : ℚ) (ex : Option Cell)
    (f : Form16Data) (ib : IncomeBreakdown) (inc : IncomeBreakdown) (ded : StrMap) (tp : ℚ)
    (z : CapitalGainsBreakdown) :
    Cell.empty.pyStr = "nan" ∧
    form16Loop path f ({ label := .empty, amount := .num v, extra := ex } :: rest)
      = form16Loop path { f with extras := f.extras.addTo "nan" v } rest ∧
    incomeLoop path ib ({ label := .empty, amount := .num v, extra := ex } :: rest)
      = incomeLoop path
          { ib with
            other_income := ib.other_income + v,
            details := ib.details ++ [⟨none, "nan", "other_income", v, ex⟩] } rest ∧
    tisLoop path inc ded tp ({ label := .empty, amount := .num v, extra := ex } :: rest)
      = tisLoop path
          { inc with
            details := inc.details ++
              [⟨some "nan", (match ex with | some c => pyStrip c.pyStr | none => ""),
                "ignored", v, none⟩] } ded tp rest ∧
    zerodhaLoop path z ({ label := .empty, amount := .num v, extra := ex } :: rest)
      = zerodhaLoop path
          { z with
            other_gains := z.other_gains + v,
            details := z.details ++ [⟨"nan", "other_gains", v, ex⟩] } rest := by
  refine ⟨rfl, ?_, ?_, ?_, ?_⟩ <;>
    simp [form16Loop, incomeLoop, tisLoop, zerodhaLoop, Cell.pyStr, pyStrip, Cell.isna,
      Cell.toFloat, _slugify, pyLower, slugChar, collapseUnd, stripUnd, income_categorize,
      zerodha_categorize, INCOME_CATEGORY_MAP, ZERODHA_CATEGORY_MAP, FORM16_FIELD_MAP,
      List.lookup, pyStartsWith, List.isPrefixOf, tisTaxpaidTypes]

end ITR2
